import Mathlib

/-!
Verification of the shopify-processor sync pipeline.

Shallow embedding of the repository's sync logic:
* `src/services/sync-queue.ts` — the BullMQ-based sync orchestrator
  (`queueProductSync`, `resetIncompleteJobs`, the sync worker, the batch
  worker, and the queue event handlers).
* `src/connectors/sources/shopify.ts` (back-end, streaming version) — the
  detail-fetch/upsert loop, `transformProduct`, and the full-sync soft-delete
  reconciliation.
* `src/utils/dateUtils.ts` — `formatShopifyDate`.
* `src/services/ProductStorage.ts` — `saveCheckpoint` / `clearCheckpoints`.
* `src/models/Checkpoint.ts` — the Product schema's unique indexes.

Timestamps are modelled as natural numbers of milliseconds since the Unix
epoch.  JavaScript numbers holding counters are modelled as `Int` (the code
can drive `pending` negative on one path and clamps it with `Math.max` on
another).  Database collections are lists of documents; external calls
(detail fetch, checkpoint write) are parameters of the functions that make
them.
-/

namespace ShopifyProcessor

/-! ### Date formatting (`src/utils/dateUtils.ts`)

`formatShopifyDate` takes `date.toISOString()` — whose first 19 characters
are the UTC wall-clock reading of the instant, truncated to seconds — and
appends the hard-coded offset string `"-04:00"`.  We model such a timestamp
string by the wall-clock reading it displays (seconds since epoch when the
fields are read as UTC) together with the offset it carries; `denotedInstantMs`
is the RFC 3339 semantics of the string: the instant it denotes, in
milliseconds. -/

structure OffsetTimestamp where
  clockSec : Nat
  offsetMin : Int
deriving Repr, DecidableEq

/-- The instant (ms since epoch) denoted by a timestamp string carrying an
explicit offset: the displayed wall clock minus the offset. -/
def denotedInstantMs (s : OffsetTimestamp) : Int :=
  (s.clockSec : Int) * 1000 - s.offsetMin * 60000

/-- `formatShopifyDate` (dateUtils.ts): `date.toISOString().substring(0, 19)`
followed by the literal `"-04:00"`.  The substring displays the UTC wall
clock of `t` truncated to whole seconds; the appended offset is a constant
-240 minutes. -/
def formatShopifyDate (t : Nat) : OffsetTimestamp :=
  { clockSec := t / 1000, offsetMin := -240 }

/-- Filter computation for a sync run: the connector adds an `updatedAtMin`
lower bound only when not forcing a full sync and a last-synced watermark
exists (`sync-queue.ts` line 165 / `shopify.ts` lines 35–68); the bound is
the watermark in Shopify format. -/
def computeUpdatedAtMin (forceFullSync : Bool) (lastSyncedAt : Option Nat) :
    Option OffsetTimestamp :=
  if forceFullSync then none
  else
    match lastSyncedAt with
    | none => none
    | some t => some (formatShopifyDate t)

/-! ### The Item Store (`src/models/product.ts`, back-end version, which is
also the Product schema embedded in `src/models/Checkpoint.ts` lines 121–162)

A product document carries the mirrored Shopify fields plus the
`_sync_metadata` sub-document.  The collection is a list of documents. -/

inductive SyncAction where
  | ADDED
  | UPDATED
  | DELETED
deriving Repr, DecidableEq

structure SyncMetadata where
  deleted_at : Option Nat
  last_action : SyncAction
  first_seen_at : Nat
  cursor : Option String
  last_modified_at : Nat
deriving Repr, DecidableEq

structure Variant where
  variantId : String
  price : String
  sku : String
  compareAtPrice : Option String
  inventoryQuantity : Option Int
  inventoryItemId : Option String
deriving Repr, DecidableEq

structure ProductDoc where
  storeId : String
  productId : String
  title : String
  description : String
  handle : String
  productType : String
  vendor : String
  tags : List String
  variants : List Variant
  shopifyCreatedAt : Nat
  shopifyUpdatedAt : Nat
  createdAt : Nat
  updatedAt : Nat
  _sync_metadata : SyncMetadata
deriving Repr, DecidableEq

/-- A product as returned by the Shopify API (snake_case upstream shape). -/
structure ShopifyVariant where
  id : String
  price : String
  sku : String
  compare_at_price : Option String
  inventory_quantity : Option Int
  inventory_item_id : Option String
deriving Repr, DecidableEq

structure ShopifyProduct where
  id : String
  title : String
  description : String
  handle : String
  product_type : String
  vendor : String
  tags : List String
  variants : List ShopifyVariant
  created_at : Nat
  updated_at : Nat
deriving Repr, DecidableEq

/-- The `Partial<IProduct>` object returned by `transformProduct`
(shopify.ts lines 563–615): the fields that the upsert `$set`s. -/
structure TransformedProduct where
  storeId : String
  productId : String
  title : String
  description : String
  handle : String
  productType : String
  vendor : String
  tags : List String
  variants : List Variant
  shopifyCreatedAt : Nat
  shopifyUpdatedAt : Nat
  _sync_metadata : SyncMetadata
deriving Repr, DecidableEq

/-- JavaScript `a || b` on nullable strings. -/
def jsOr (a b : Option String) : Option String :=
  match a with
  | some x => some x
  | none => b

def transformVariant (v : ShopifyVariant) : Variant :=
  { variantId := v.id
  , price := v.price
  , sku := v.sku
  , compareAtPrice := v.compare_at_price
  , inventoryQuantity := v.inventory_quantity
  , inventoryItemId := v.inventory_item_id }

/-- `transformProduct` (shopify.ts lines 563–615).  For an existing product
the metadata preserves `first_seen_at`, keeps the old cursor when the run's
cursor is null (`cursor || existingProduct._sync_metadata.cursor`), and
records the action as `UPDATED`; for a new product all fields are fresh and
the action is `ADDED`. -/
def transformProduct (p : ShopifyProduct) (storeId : String)
    (existingProduct : Option ProductDoc) (cursor : Option String)
    (now : Nat) : TransformedProduct :=
  let syncMetadata : SyncMetadata :=
    match existingProduct with
    | some e =>
      { deleted_at := none
      , last_action := .UPDATED
      , first_seen_at := e._sync_metadata.first_seen_at
      , cursor := jsOr cursor e._sync_metadata.cursor
      , last_modified_at := now }
    | none =>
      { deleted_at := none
      , last_action := .ADDED
      , first_seen_at := now
      , cursor := cursor
      , last_modified_at := now }
  { storeId := storeId
  , productId := p.id
  , title := p.title
  , description := p.description
  , handle := p.handle
  , productType := p.product_type
  , vendor := p.vendor
  , tags := p.tags
  , variants := p.variants.map transformVariant
  , shopifyCreatedAt := p.created_at
  , shopifyUpdatedAt := p.updated_at
  , _sync_metadata := syncMetadata }

/-- `ProductModel.findOne({ storeId, productId })`: the first document in the
collection matching the compound key. -/
def findOneProduct : List ProductDoc → String → String → Option ProductDoc
  | [], _, _ => none
  | d :: rest, storeId, productId =>
    if d.storeId = storeId ∧ d.productId = productId then some d
    else findOneProduct rest storeId productId

/-- `$set` of the transformed fields plus `updatedAt` onto an existing
document (its `createdAt` is untouched — `$setOnInsert` only). -/
def applySet (d : ProductDoc) (t : TransformedProduct) (now : Nat) : ProductDoc :=
  { storeId := t.storeId
  , productId := t.productId
  , title := t.title
  , description := t.description
  , handle := t.handle
  , productType := t.productType
  , vendor := t.vendor
  , tags := t.tags
  , variants := t.variants
  , shopifyCreatedAt := t.shopifyCreatedAt
  , shopifyUpdatedAt := t.shopifyUpdatedAt
  , createdAt := d.createdAt
  , updatedAt := now
  , _sync_metadata := t._sync_metadata }

/-- Document produced when the upsert inserts (`$set` plus `$setOnInsert
createdAt`). -/
def newProductDoc (t : TransformedProduct) (now : Nat) : ProductDoc :=
  { storeId := t.storeId
  , productId := t.productId
  , title := t.title
  , description := t.description
  , handle := t.handle
  , productType := t.productType
  , vendor := t.vendor
  , tags := t.tags
  , variants := t.variants
  , shopifyCreatedAt := t.shopifyCreatedAt
  , shopifyUpdatedAt := t.shopifyUpdatedAt
  , createdAt := now
  , updatedAt := now
  , _sync_metadata := t._sync_metadata }

/-- `ProductModel.updateOne({storeId, productId}, {$set: ..., $setOnInsert:
...}, {upsert: true})` (shopify.ts lines 367–382): update the first matching
document, or append a new one.  The Boolean is `upsertedCount > 0`, i.e.
whether the write inserted. -/
def updateOneUpsert : List ProductDoc → String → String → TransformedProduct →
    Nat → List ProductDoc × Bool
  | [], _, _, t, now => ([newProductDoc t now], true)
  | d :: rest, storeId, productId, t, now =>
    if d.storeId = storeId ∧ d.productId = productId then
      (applySet d t now :: rest, false)
    else
      let r := updateOneUpsert rest storeId productId t now
      (d :: r.1, r.2)

/-- One product's find-transform-upsert step (shopify.ts lines 353–382). -/
def upsertShopifyProduct (store : List ProductDoc) (storeId : String)
    (p : ShopifyProduct) (cursor : Option String) (now : Nat) :
    List ProductDoc × Bool :=
  let existingProduct := findOneProduct store storeId p.id
  let t := transformProduct p storeId existingProduct cursor now
  updateOneUpsert store storeId p.id t now

/-- Number of documents in the collection carrying a given
`(storeId, productId)` key. -/
def keyCount : List ProductDoc → String → String → Nat
  | [], _, _ => 0
  | d :: rest, storeId, productId =>
    (if d.storeId = storeId ∧ d.productId = productId then 1 else 0) +
      keyCount rest storeId productId

/-! ### The streaming connector's detail-batch loop
(`src/connectors/sources/shopify.ts`, back-end streaming version, lines
342–439).

The batch's detail fetches are issued together with
`Promise.all(currentBatch.map(id => shopifyAPI.getProduct(id)))` inside a
`try` that, on rejection, records the whole batch as failed
(`failed += currentBatch.length`, `recordFailure(currentBatch.length)`) and
upserts nothing.  Only the per-product save step sits inside an inner
per-item `try`/`catch` that increments `failed` by one and continues.

External effects are parameters: `fetch` models `shopifyAPI.getProduct`
(success or a thrown error), `saveFails` models which ids' inner
find/transform/upsert step throws. -/

structure ProcState where
  store : List ProductDoc
  created : Nat
  updated : Nat
  failed : Nat
  processedProductIds : List String
deriving Repr, DecidableEq

/-- The per-product body of the inner loop (shopify.ts lines 350–402): on an
inner throw, count one failure and continue; otherwise find, transform,
upsert, bump `created`/`updated` by the upsert outcome, and record the id as
processed. -/
def processFetchedProduct (saveFails : String → Bool) (storeId : String)
    (cursor : Option String) (now : Nat) (acc : ProcState)
    (p : ShopifyProduct) : ProcState :=
  if saveFails p.id then
    { acc with failed := acc.failed + 1 }
  else
    let r := upsertShopifyProduct acc.store storeId p cursor now
    if r.2 then
      { acc with store := r.1
               , created := acc.created + 1
               , processedProductIds := acc.processedProductIds ++ [p.id] }
    else
      { acc with store := r.1
               , updated := acc.updated + 1
               , processedProductIds := acc.processedProductIds ++ [p.id] }

/-- One detail batch (shopify.ts lines 342–439): `Promise.all` over the
fetches, then the per-product loop; a rejected fetch fails the whole batch. -/
def processDetailBatch (fetch : String → Except String ShopifyProduct)
    (saveFails : String → Bool) (store : List ProductDoc) (storeId : String)
    (currentBatch : List String) (cursor : Option String) (now : Nat) :
    ProcState :=
  match currentBatch.mapM fetch with
  | .error _ =>
    { store := store
    , created := 0
    , updated := 0
    , failed := currentBatch.length
    , processedProductIds := [] }
  | .ok products =>
    products.foldl (processFetchedProduct saveFails storeId cursor now)
      { store := store
      , created := 0
      , updated := 0
      , failed := 0
      , processedProductIds := [] }

/-! ### Full-sync soft-delete reconciliation (shopify.ts lines 483–527). -/

/-- The `$set` applied by the cleanup's `updateMany` to a matched document. -/
def markDeletedMeta (d : ProductDoc) (now : Nat) (syncCursor : Option String) :
    ProductDoc :=
  { d with _sync_metadata :=
      { d._sync_metadata with
          deleted_at := some now
        , last_action := .DELETED
        , last_modified_at := now
        , cursor := syncCursor } }

/-- `ProductModel.updateMany({storeId, productId: {$nin: processedProductIds},
"_sync_metadata.deleted_at": null}, {$set: ...})` (shopify.ts lines 488–502):
soft-delete every not-yet-deleted document of the store whose id was not
successfully processed this run. -/
def markDeletedProducts (store : List ProductDoc) (storeId : String)
    (processedProductIds : List String) (now : Nat)
    (syncCursor : Option String) : List ProductDoc :=
  store.map fun d =>
    if d.storeId = storeId ∧ d.productId ∉ processedProductIds ∧
        d._sync_metadata.deleted_at = none then
      markDeletedMeta d now syncCursor
    else d

/-- The optional retention purge (shopify.ts lines 510–523):
`deleteMany({storeId, "_sync_metadata.deleted_at": {$ne: null, $lte:
purgeDate}})`. -/
def purgeDeletedBefore (store : List ProductDoc) (storeId : String)
    (purgeDate : Nat) : List ProductDoc :=
  store.filter fun d =>
    match d._sync_metadata.deleted_at with
    | none => true
    | some t => decide (¬(d.storeId = storeId ∧ t ≤ purgeDate))

/-- The whole cleanup block (shopify.ts lines 483–527): runs only when the
sync was a full sync, at least one product was successfully processed, and
`config.skipCleanup` is unset; optionally purges documents soft-deleted
before `now - purgeDeletedAfterDays` (here the purge threshold is passed
directly as an optional cutoff instant). -/
def cleanupAfterFullSync (store : List ProductDoc) (storeId : String)
    (isFullSync : Bool) (processedProductIds : List String)
    (skipCleanup : Bool) (purgeBefore : Option Nat) (now : Nat)
    (syncCursor : Option String) : List ProductDoc :=
  if isFullSync ∧ processedProductIds ≠ [] ∧ ¬skipCleanup then
    let marked := markDeletedProducts store storeId processedProductIds now
      syncCursor
    match purgeBefore with
    | none => marked
    | some purgeDate => purgeDeletedBefore marked storeId purgeDate
  else store

/-! ### The SyncState record (`src/models/sync-state.ts`) and the sync queue
(`src/services/sync-queue.ts`).

`lastSyncStats.batchJobs` is `Schema.Types.Mixed` and is used in two shapes —
an array of per-job records and an object of counters — so it is modelled as
a sum.  Counter fields are `Int` (JavaScript numbers: the failed-event
handler decrements `pending` without a clamp). -/

structure SyncError where
  productId : String
  error : String
deriving Repr, DecidableEq

structure BatchJobArrEntry where
  jobId : String
  status : String
  error : Option String
deriving Repr, DecidableEq

structure BatchJobsObj where
  total : Int
  completed : Int
  failed : Int
  pending : Int
  ids : List String
deriving Repr, DecidableEq

inductive BatchJobsVal where
  | arr (jobs : List BatchJobArrEntry)
  | obj (o : BatchJobsObj)
deriving Repr, DecidableEq

structure SyncStats where
  startedAt : Option Nat
  completedAt : Option Nat
  totalProductsToProcess : Option Nat
  existingProductIds : List String
  productsProcessed : Int
  productsCreated : Int
  productsUpdated : Int
  productsDeleted : Int
  batchJobs : BatchJobsVal
  errors : List SyncError
deriving Repr, DecidableEq

structure SyncState where
  storeId : String
  lastSyncedAt : Option Nat
  lastSyncDuration : Int
  totalSyncs : Int
  totalProductsProcessed : Int
  totalProductsCreated : Int
  totalProductsUpdated : Int
  totalProductsDeleted : Int
  testMessage : Option String
  lastSyncStats : SyncStats
  lastSyncError : Option String
  isInProgress : Bool
deriving Repr, DecidableEq

/-- A document of the sync queue's `ProductModel` as the queue code queries
it (`distinct("productId", {storeId})`, `deleteMany({storeId, productId:
{$in: ...}})`): only the key fields matter to those queries. -/
structure StoredProductRef where
  storeId : String
  productId : String
deriving Repr, DecidableEq

/-- The guard used throughout sync-queue.ts (`typeof batchJobs === "object"
&& !Array.isArray(batchJobs)` with a reset to a zeroed object otherwise,
lines 313–325 and 511–523). -/
def ensureBatchJobsObj (b : BatchJobsVal) : BatchJobsObj :=
  match b with
  | .obj o => o
  | .arr _ => { total := 0, completed := 0, failed := 0, pending := 0, ids := [] }

/-- The sync worker records the dispatched batch jobs (sync-queue.ts lines
239–247): the object shape with `total = pending = ids.length`. -/
def dispatchBatchJobs (s : SyncState) (batchIds : List String) : SyncState :=
  let o : BatchJobsObj :=
    { total := (batchIds.length : Int)
    , completed := 0
    , failed := 0
    , pending := (batchIds.length : Int)
    , ids := batchIds }
  { s with lastSyncStats := { s.lastSyncStats with batchJobs := .obj o } }

/-- The sync worker's `catch` (sync-queue.ts lines 263–277): mark the run
failed — `isInProgress = false`, store the error, stamp `completedAt`.
`lastSyncedAt` is not touched on this path. -/
def syncWorkerCatch (s : SyncState) (errMsg : String) (now : Nat) : SyncState :=
  { s with isInProgress := false
         , lastSyncError := some errMsg
         , lastSyncStats := { s.lastSyncStats with completedAt := some now } }

/-- The item-level outcome a batch worker merges into the sync state. -/
structure BatchResult where
  processedCount : Int
  createdCount : Int
  updatedCount : Int
  batchErrors : List SyncError
deriving Repr, DecidableEq

/-- The batch worker's bookkeeping on success (sync-queue.ts lines 312–440):
ensure the object shape, set the test field, merge the item counters and
errors, then increment `batchJobs.completed` and clamp-decrement `pending`. -/
def batchWorkerSuccess (s : SyncState) (r : BatchResult) : SyncState :=
  let o := ensureBatchJobsObj s.lastSyncStats.batchJobs
  let o2 := { o with completed := o.completed + 1
                   , pending := max 0 (o.pending - 1) }
  { s with testMessage := some "test"
         , lastSyncStats :=
      { s.lastSyncStats with
          productsProcessed := s.lastSyncStats.productsProcessed + r.processedCount
        , productsCreated := s.lastSyncStats.productsCreated + r.createdCount
        , productsUpdated := s.lastSyncStats.productsUpdated + r.updatedCount
        , errors := s.lastSyncStats.errors ++ r.batchErrors
        , batchJobs := .obj o2 } }

/-- The completion check of the batch `completed` event handler
(sync-queue.ts lines 537–556): against `ids.length` when job ids were
recorded, else against `total`. -/
def allCompletedCheck (o : BatchJobsObj) : Bool :=
  if o.ids.length > 0 then
    decide (o.completed + o.failed ≥ (o.ids.length : Int))
  else
    decide (o.total > 0 ∧ o.completed + o.failed ≥ o.total)

/-- The batch queue's `completed` event handler (sync-queue.ts lines
489–712): ensure the object shape, increment `completed` again,
clamp-decrement `pending`, and — when the completion check passes — run the
full-sync `deleteMany` reconciliation against the store and finalize the run:
`isInProgress = false`, `lastSyncedAt = now`, merge the run counters into the
cumulative totals, stamp `completedAt`. -/
def batchEventCompleted (s : SyncState) (forceFullSync : Bool) (now : Nat)
    (store : List StoredProductRef) : SyncState × List StoredProductRef :=
  let o := ensureBatchJobsObj s.lastSyncStats.batchJobs
  let o := { o with completed := o.completed + 1
                  , pending := max 0 (o.pending - 1) }
  let s := { s with lastSyncStats := { s.lastSyncStats with batchJobs := .obj o } }
  if allCompletedCheck o then
    let toDelete := s.lastSyncStats.existingProductIds
    let doDelete := forceFullSync ∧ toDelete ≠ []
    let store2 :=
      if doDelete then
        store.filter fun d =>
          decide (¬(d.storeId = s.storeId ∧ d.productId ∈ toDelete))
      else store
    let st :=
      if doDelete then
        { s.lastSyncStats with
            productsDeleted := ((store.length - store2.length : Nat) : Int) }
      else s.lastSyncStats
    let duration := (now : Int) - ((st.startedAt.getD 0 : Nat) : Int)
    ({ s with
        isInProgress := false
      , lastSyncedAt := some now
      , lastSyncDuration := duration
      , totalSyncs := s.totalSyncs + 1
      , totalProductsProcessed := s.totalProductsProcessed + st.productsProcessed
      , totalProductsCreated := s.totalProductsCreated + st.productsCreated
      , totalProductsUpdated := s.totalProductsUpdated + st.productsUpdated
      , totalProductsDeleted := s.totalProductsDeleted + st.productsDeleted
      , lastSyncStats := { st with completedAt := some now } }, store2)
  else (s, store)

/-- The batch queue's `failed` event handler (sync-queue.ts lines 719–792):
only acts when `batchJobs` is already in object shape; increments `failed`,
decrements `pending` (no clamp on this path), appends a batch-level error,
and — when `completed + failed === total` — finalizes the run, setting
`isInProgress = false`, `lastSyncedAt = now`, merging counters (the deleted
counter is not merged on this path) and recording a summary
`lastSyncError`. -/
def batchEventFailed (s : SyncState) (jobId : String) (failedReason : String)
    (now : Nat) : SyncState :=
  match s.lastSyncStats.batchJobs with
  | .arr _ => s
  | .obj o =>
    let o := { o with failed := o.failed + 1, pending := o.pending - 1 }
    let st := { s.lastSyncStats with
                  batchJobs := .obj o
                , errors := s.lastSyncStats.errors ++
                    [{ productId := "batch-" ++ jobId, error := failedReason }] }
    let s := { s with lastSyncStats := st }
    if o.completed + o.failed = o.total then
      let duration := (now : Int) - ((st.startedAt.getD 0 : Nat) : Int)
      { s with
          isInProgress := false
        , lastSyncedAt := some now
        , lastSyncDuration := duration
        , totalSyncs := s.totalSyncs + 1
        , totalProductsProcessed := s.totalProductsProcessed + st.productsProcessed
        , totalProductsCreated := s.totalProductsCreated + st.productsCreated
        , totalProductsUpdated := s.totalProductsUpdated + st.productsUpdated
        , lastSyncStats := { st with completedAt := some now }
        , lastSyncError :=
            if (0 : Int) < o.failed then
              some ("Sync completed with " ++ toString o.failed ++
                " failed batch jobs")
            else s.lastSyncError }
    else s

/-! ### Sync request entry point (`sync-queue.ts` lines 42–89 and 806–893). -/

/-- Array-shape batch jobs that are neither completed nor failed are marked
failed during a stuck-state reset (sync-queue.ts lines 68–75). -/
def markArrayJobsFailed (jobs : List BatchJobArrEntry) (msg : String) :
    List BatchJobArrEntry :=
  jobs.map fun j =>
    if j.status ≠ "completed" ∧ j.status ≠ "failed" then
      { j with status := "failed", error := some msg }
    else j

/-- `resetIncompleteJobs` (sync-queue.ts lines 42–89), restricted to a single
sync state.  The query selects states with `isInProgress: true` and an
existing `lastSyncStats.startedAt`; a selected state is reset only when
`startedAt` and `completedAt` are both present and their times are exactly
equal. -/
def resetIncompleteJobs (s : SyncState) : SyncState :=
  if s.isInProgress = true ∧ s.lastSyncStats.startedAt ≠ none then
    match s.lastSyncStats.startedAt, s.lastSyncStats.completedAt with
    | some a, some b =>
      if a = b then
        let bj :=
          match s.lastSyncStats.batchJobs with
          | .arr jobs =>
            BatchJobsVal.arr
              (markArrayJobsFailed jobs "Reset due to stuck sync state")
          | .obj o => BatchJobsVal.obj o
        { s with
            isInProgress := false
          , lastSyncError :=
              some "Sync was reset due to being stuck in progress state"
          , lastSyncStats := { s.lastSyncStats with batchJobs := bj } }
      else s
    | _, _ => s
  else s

def staleThreshold : Nat := 60 * 60 * 1000

def timeoutResetMessage : String := "Previous sync was reset due to timeout"

def conflictMessage : String :=
  "A product sync is already in progress for this store"

/-- The fresh `lastSyncStats` written at the start of every run
(sync-queue.ts lines 855–866): zeroed counters, `completedAt = null`, and an
empty array for `batchJobs`. -/
def freshRunStats (now : Nat) : SyncStats :=
  { startedAt := some now
  , completedAt := none
  , totalProductsToProcess := none
  , existingProductIds := []
  , productsProcessed := 0
  , productsCreated := 0
  , productsUpdated := 0
  , productsDeleted := 0
  , batchJobs := .arr []
  , errors := [] }

/-- Preparing and queueing the new run (sync-queue.ts lines 854–892):
`isInProgress = true` and a fresh `lastSyncStats`; the rest of the record
(including `lastSyncedAt` and `lastSyncError`) is carried over. -/
def startNewRun (s : SyncState) (now : Nat) : SyncState :=
  { s with isInProgress := true, lastSyncStats := freshRunStats now }

inductive QueueSyncResult where
  | conflict (message : String)
  | queued (state : SyncState)
deriving Repr, DecidableEq

/-- `queueProductSync` (sync-queue.ts lines 806–893) for an existing sync
state: first the `resetIncompleteJobs` sweep; then, if the state is in
progress, either force-reset it when `startedAt` is more than the one-hour
stale threshold in the past, or throw the conflict error; finally start the
new run. -/
def queueProductSync (s : SyncState) (now : Nat) : QueueSyncResult :=
  let s := resetIncompleteJobs s
  if s.isInProgress then
    match s.lastSyncStats.startedAt with
    | some st =>
      if staleThreshold < now - st then
        .queued (startNewRun
          { s with isInProgress := false
                 , lastSyncError := some timeoutResetMessage } now)
      else .conflict conflictMessage
    | none => .conflict conflictMessage
  else .queued (startNewRun s now)

/-! ### Checkpoints (`src/services/ProductStorage.ts` lines 235–332).

The underlying Mongo write is a parameter (`write`), so the error behaviour
of the service methods is visible: `saveCheckpoint` logs and **rethrows**
(`throw error`, line 261), while `clearCheckpoints` logs and returns `0`. -/

structure CheckpointDoc where
  jobId : String
  lastProcessedId : String
  processingStage : String
  timestamp : Nat
deriving Repr, DecidableEq

/-- `saveCheckpoint` (ProductStorage.ts lines 235–263): build the checkpoint
document, attempt the write, and on failure log and rethrow the error to the
caller. -/
def saveCheckpoint (write : CheckpointDoc → Except String Unit)
    (jobId lastProcessedId processingStage : String) (now : Nat) :
    Except String CheckpointDoc :=
  let checkpoint : CheckpointDoc :=
    { jobId := jobId
    , lastProcessedId := lastProcessedId
    , processingStage := processingStage
    , timestamp := now }
  match write checkpoint with
  | .ok _ => .ok checkpoint
  | .error e => .error e

/-- `clearCheckpoints` (ProductStorage.ts lines 321–332): returns the deleted
count, or `0` when the underlying delete fails (error swallowed). -/
def clearCheckpoints (deleteResult : Except String Nat) : Nat :=
  match deleteResult with
  | .ok n => n
  | .error _ => 0

/-! ### The Product schema's unique indexes (`src/models/Checkpoint.ts`
lines 121–162).

The schema declares `productId: { type: String, required: true, unique:
true }` (line 123) — a single-field unique index — in addition to the
compound unique index `{ storeId: 1, productId: 1 }` (line 162).  A Mongo
insert fails with a duplicate-key error when it would violate either. -/

/-- Semantics of the single-field unique index on `productId`. -/
def productIdUniqueIndex (docs : List ProductDoc) : Prop :=
  docs.Pairwise fun a b => a.productId ≠ b.productId

/-- Semantics of the compound unique index on `(storeId, productId)`. -/
def storeProductUniqueIndex (docs : List ProductDoc) : Prop :=
  docs.Pairwise fun a b => ¬(a.storeId = b.storeId ∧ a.productId = b.productId)

/-- An insert (`ProductModel.create`) against the declared unique indexes:
rejected with a duplicate-key error when an existing document shares the
`productId` (single-field index) or the full compound key. -/
def insertProductDoc (docs : List ProductDoc) (d : ProductDoc) :
    Except String (List ProductDoc) :=
  if docs.any fun x => x.productId = d.productId then
    .error "E11000 duplicate key error: index productId_1"
  else if docs.any fun x => x.storeId = d.storeId ∧ x.productId = d.productId then
    .error "E11000 duplicate key error: index storeId_1_productId_1"
  else .ok (docs ++ [d])

/-! ### Concrete inputs used to evaluate the model. -/

/-- A minimal upstream product with the given id. -/
def mkShopifyProduct (id : String) : ShopifyProduct :=
  { id := id
  , title := "Title " ++ id
  , description := ""
  , handle := "handle-" ++ id
  , product_type := ""
  , vendor := ""
  , tags := []
  , variants := []
  , created_at := 0
  , updated_at := 0 }

/-- A fetch in which every id resolves. -/
def okFetch (id : String) : Except String ShopifyProduct :=
  .ok (mkShopifyProduct id)

/-- A fetch that throws for one particular id. -/
def fetchFailAt (bad : String) (id : String) : Except String ShopifyProduct :=
  if id = bad then .error "fetch failed" else .ok (mkShopifyProduct id)

/-- A save-step failure for one particular id. -/
def saveFailAt (bad : String) (id : String) : Bool :=
  id = bad

/-- No save-step failures. -/
def noSaveFail (_ : String) : Bool :=
  false

def tenIds : List String :=
  ["p1", "p2", "p3", "p4", "p5", "p6", "p7", "p8", "p9", "p10"]

/-- A pre-existing, not-deleted product document of store `s1`. -/
def docP1 : ProductDoc :=
  { storeId := "s1"
  , productId := "p1"
  , title := "Old title"
  , description := ""
  , handle := "handle-p1"
  , productType := ""
  , vendor := ""
  , tags := []
  , variants := []
  , shopifyCreatedAt := 0
  , shopifyUpdatedAt := 0
  , createdAt := 10
  , updatedAt := 10
  , _sync_metadata :=
      { deleted_at := none
      , last_action := .ADDED
      , first_seen_at := 10
      , cursor := none
      , last_modified_at := 10 } }

/-- The batch outcome of the C3 scenario: enumeration returned ids p1 and p2,
both detail fetches succeeded, but p1's save step threw. -/
def c3BatchOutcome : ProcState :=
  processDetailBatch okFetch (saveFailAt "p1") [docP1] "s1" ["p1", "p2"]
    (some "cursor-1") 100

/-- The store after the C3 scenario's full-sync cleanup. -/
def c3FinalStore : List ProductDoc :=
  cleanupAfterFullSync c3BatchOutcome.store "s1" true
    c3BatchOutcome.processedProductIds false none 200 (some "cursor-1")

/-- A sync state with no history, as created on the first sync request. -/
def baseSyncState : SyncState :=
  { storeId := "store-1"
  , lastSyncedAt := none
  , lastSyncDuration := 0
  , totalSyncs := 0
  , totalProductsProcessed := 0
  , totalProductsCreated := 0
  , totalProductsUpdated := 0
  , totalProductsDeleted := 0
  , testMessage := none
  , lastSyncStats := freshRunStats 0
  , lastSyncError := none
  , isInProgress := false }

/-- The sync state of an in-progress run started at time 0. -/
def inProgressState : SyncState :=
  { baseSyncState with isInProgress := true }

/-- The combined effect of one successful batch job: the batch worker's
bookkeeping followed by the batch queue's `completed` event handler (both run
for the same batch). -/
def recordBatchSuccess (s : SyncState) (r : BatchResult) (now : Nat) :
    SyncState :=
  (batchEventCompleted (batchWorkerSuccess s r) false now []).1

/-- An item-level result of one successful batch of five products. -/
def fiveProcessed : BatchResult :=
  { processedCount := 5, createdCount := 5, updatedCount := 0, batchErrors := [] }

/-- The run state right after the sync worker dispatched a single batch job. -/
def runWithOneBatch : SyncState :=
  dispatchBatchJobs inProgressState ["b1"]

/-- The run state right after the sync worker dispatched two batch jobs. -/
def runWithTwoBatches : SyncState :=
  dispatchBatchJobs inProgressState ["b1", "b2"]

/-- The C1 scenario: an incremental run with watermark 1000 whose single
dispatched batch job fails for good. -/
def c1State : SyncState :=
  { runWithOneBatch with lastSyncedAt := some 1000 }

/-- The one-batch run after its batch succeeded (worker bookkeeping plus
`completed` event handler). -/
def c2OneBatchDone : SyncState :=
  recordBatchSuccess runWithOneBatch fiveProcessed 100

/-- The two-batch run after the first batch succeeded. -/
def c2TwoBatchFirstDone : SyncState :=
  recordBatchSuccess runWithTwoBatches fiveProcessed 100

/-- The two-batch run after both batches succeeded. -/
def c2TwoBatchBothDone : SyncState :=
  recordBatchSuccess c2TwoBatchFirstDone fiveProcessed 200

/-! ## Theorems -/

/-- Helper: the `resetIncompleteJobs` sweep never touches a state whose
`completedAt` is null. -/
theorem resetIncompleteJobs_noop_of_completedAt_none (s : SyncState)
    (h : s.lastSyncStats.completedAt = none) : resetIncompleteJobs s = s := by
  unfold resetIncompleteJobs
  split
  · split
    · rename_i heq
      rw [h] at heq
      exact Option.noConfusion heq
    · rfl
  · rfl

/-- C5, counterexample: with `lastSyncedAt = T0 = 1746314991000` (a whole
second), the incremental lower-bound filter produced through
`formatShopifyDate` denotes `T0 + 4` hours, not the same instant as `T0`. -/
theorem c5_filter_wrong_instant :
    computeUpdatedAtMin false (some 1746314991000) =
      some (formatShopifyDate 1746314991000) ∧
    denotedInstantMs (formatShopifyDate 1746314991000) =
      1746314991000 + 14400000 ∧
    (1746314991000 + 14400000 : Int) ≠ 1746314991000 := by
  refine ⟨rfl, by decide, by decide⟩

/-- C5, amended: no lower-bound filter is passed exactly when `forceFullSync`
is set or `lastSyncedAt` is null; otherwise the filter is
`formatShopifyDate lastSyncedAt`, whose string denotes the instant
`lastSyncedAt` truncated to seconds **plus four hours** (the hard-coded
`-04:00` suffix shifts the denoted instant), not `lastSyncedAt` itself. -/
theorem c5_filter_computation :
    (∀ l, computeUpdatedAtMin true l = none) ∧
    computeUpdatedAtMin false none = none ∧
    (∀ t, computeUpdatedAtMin false (some t) = some (formatShopifyDate t)) ∧
    (∀ t, denotedInstantMs (formatShopifyDate t) =
      ((t / 1000 : Nat) : Int) * 1000 + 14400000) := by
  refine ⟨fun l => rfl, rfl, fun t => rfl, fun t => ?_⟩
  show ((t / 1000 : Nat) : Int) * 1000 - (-240) * 60000 =
    ((t / 1000 : Nat) : Int) * 1000 + 14400000
  ring

/-- C8, counterexample: a failing underlying write makes `saveCheckpoint`
return the error to its caller instead of swallowing it. -/
theorem c8_saveCheckpoint_rethrows :
    saveCheckpoint (fun _ => .error "storage unavailable") "job-1" "42"
      "product-processing" 7 = .error "storage unavailable" := rfl

/-- C8, amended: `saveCheckpoint` logs and **rethrows** a storage failure
(the caller sees the error); on a successful write it returns the checkpoint.
By contrast `clearCheckpoints` swallows its storage failure and returns 0. -/
theorem c8_saveCheckpoint_error_behaviour :
    (∀ (write : CheckpointDoc → Except String Unit) jobId lastId stage now e,
      write { jobId := jobId, lastProcessedId := lastId
            , processingStage := stage, timestamp := now } = .error e →
      saveCheckpoint write jobId lastId stage now = .error e) ∧
    (∀ (write : CheckpointDoc → Except String Unit) jobId lastId stage now,
      write { jobId := jobId, lastProcessedId := lastId
            , processingStage := stage, timestamp := now } = .ok () →
      saveCheckpoint write jobId lastId stage now =
        .ok { jobId := jobId, lastProcessedId := lastId
            , processingStage := stage, timestamp := now }) ∧
    (∀ e, clearCheckpoints (.error e) = 0) := by
  refine ⟨?_, ?_, fun e => rfl⟩
  · intro write jobId lastId stage now e h
    simp only [saveCheckpoint]
    rw [h]
  · intro write jobId lastId stage now h
    simp only [saveCheckpoint]
    rw [h]

theorem c8_saveCheckpoint_error_behaviour_witness :
    saveCheckpoint (fun _ => .error "down") "j1" "p9" "stage-1" 3 =
      .error "down" :=
  c8_saveCheckpoint_error_behaviour.1 (fun _ => .error "down") "j1" "p9"
    "stage-1" 3 "down" rfl

/-- C9: the Product schema's single-field unique index on `productId` forces
any two distinct documents of a valid collection to carry different
`productId`s — across stores — and an insert that reuses an existing
`productId` under a different `storeId` is rejected with a duplicate-key
error. -/
theorem c9_productId_globally_unique :
    (∀ docs : List ProductDoc, productIdUniqueIndex docs →
      ∀ a ∈ docs, ∀ b ∈ docs, a ≠ b → a.productId ≠ b.productId) ∧
    (∀ (docs : List ProductDoc) (d x : ProductDoc), x ∈ docs →
      x.productId = d.productId → x.storeId ≠ d.storeId →
      insertProductDoc docs d =
        .error "E11000 duplicate key error: index productId_1") := by
  constructor
  · intro docs hidx a ha b hb hne
    exact (List.Pairwise.forall (fun x y h => h.symm) hidx) ha hb hne
  · intro docs d x hx hpid _hsid
    have h : (docs.any fun y => y.productId = d.productId) = true :=
      List.any_eq_true.2 ⟨x, hx, decide_eq_true hpid⟩
    unfold insertProductDoc
    rw [if_pos h]

theorem c9_productId_globally_unique_witness :
    insertProductDoc [docP1]
      { docP1 with storeId := "another-store" } =
      .error "E11000 duplicate key error: index productId_1" :=
  c9_productId_globally_unique.2 [docP1]
    { docP1 with storeId := "another-store" } docP1 (by simp) rfl (by decide)

/-- Helper: the only states the `resetIncompleteJobs` sweep changes are those
with `isInProgress` and equal, non-null `startedAt`/`completedAt`. -/
theorem resetIncompleteJobs_cases (s : SyncState) :
    resetIncompleteJobs s = s ∨
      (s.isInProgress = true ∧ ∃ t, s.lastSyncStats.startedAt = some t ∧
        s.lastSyncStats.completedAt = some t) := by
  unfold resetIncompleteJobs
  split
  · rename_i hcond
    split
    · rename_i a b heqa heqb
      split
      · rename_i hab
        exact Or.inr ⟨hcond.1, a, heqa, by rw [heqb, hab]⟩
      · exact Or.inl rfl
    · exact Or.inl rfl
  · exact Or.inl rfl

/-- C10: the pre-sync `resetIncompleteJobs` sweep resets a state only when
`startedAt` and `completedAt` are both non-null and exactly equal; a stuck
run with `completedAt = null` is left untouched (so still `isInProgress`),
and such a run is recovered by the one-hour staleness check inside
`queueProductSync`, which then starts a new run. -/
theorem c10_reset_sweep_requires_equal_timestamps :
    (∀ s : SyncState, s.lastSyncStats.completedAt = none →
      resetIncompleteJobs s = s) ∧
    (∀ s : SyncState, resetIncompleteJobs s ≠ s →
      s.isInProgress = true ∧ ∃ t, s.lastSyncStats.startedAt = some t ∧
        s.lastSyncStats.completedAt = some t) ∧
    (∀ (s : SyncState) (now st : Nat), s.isInProgress = true →
      s.lastSyncStats.startedAt = some st →
      s.lastSyncStats.completedAt = none → staleThreshold < now - st →
      ∃ s2, queueProductSync s now = .queued s2) := by
  refine ⟨resetIncompleteJobs_noop_of_completedAt_none, ?_, ?_⟩
  · intro s hne
    rcases resetIncompleteJobs_cases s with h | h
    · exact absurd h hne
    · exact h
  · intro s now st h1 h2 h3 h4
    have hr := resetIncompleteJobs_noop_of_completedAt_none s h3
    refine ⟨startNewRun
      { s with isInProgress := false
             , lastSyncError := some timeoutResetMessage } now, ?_⟩
    simp only [queueProductSync]
    rw [hr, h1, h2]
    simp only [if_true]
    rw [if_pos h4]

theorem c10_reset_sweep_requires_equal_timestamps_witness :
    resetIncompleteJobs inProgressState = inProgressState :=
  c10_reset_sweep_requires_equal_timestamps.1 inProgressState rfl

/-- C7: a sync request against an in-progress state (with `completedAt`
null, the shape of a genuinely running sync) force-resets the run and starts
a new one when `startedAt` is more than the one-hour threshold in the past —
the queued state carries the timeout message, a fresh `startedAt`, and the
untouched watermark — and is rejected with the conflict error when
`startedAt` is within the threshold. -/
theorem c7_stale_reset_or_conflict (s : SyncState) (now st : Nat)
    (h1 : s.isInProgress = true) (h2 : s.lastSyncStats.startedAt = some st)
    (h3 : s.lastSyncStats.completedAt = none) :
    (staleThreshold < now - st →
      ∃ s2, queueProductSync s now = .queued s2 ∧
        s2.isInProgress = true ∧
        s2.lastSyncError = some timeoutResetMessage ∧
        s2.lastSyncStats.startedAt = some now ∧
        s2.lastSyncedAt = s.lastSyncedAt) ∧
    (¬staleThreshold < now - st →
      queueProductSync s now = .conflict conflictMessage) := by
  have hr := resetIncompleteJobs_noop_of_completedAt_none s h3
  constructor
  · intro h4
    refine ⟨startNewRun
      { s with isInProgress := false
             , lastSyncError := some timeoutResetMessage } now,
      ?_, rfl, rfl, rfl, rfl⟩
    simp only [queueProductSync]
    rw [hr, h1, h2]
    simp only [if_true]
    rw [if_pos h4]
  · intro h4
    simp only [queueProductSync]
    rw [hr, h1, h2]
    simp only [if_true]
    rw [if_neg h4]

theorem c7_stale_reset_or_conflict_witness :
    ∃ s2, queueProductSync inProgressState 7200000 = .queued s2 ∧
      s2.isInProgress = true ∧
      s2.lastSyncError = some timeoutResetMessage ∧
      s2.lastSyncStats.startedAt = some 7200000 ∧
      s2.lastSyncedAt = inProgressState.lastSyncedAt :=
  (c7_stale_reset_or_conflict inProgressState 7200000 0 rfl rfl rfl).1
    (by decide)

/-- C1, counterexample: an incremental run with watermark 1000 whose last
(and only) outstanding batch completes as failed is finalized by the batch
queue's `failed` event handler with `lastSyncedAt` set to the completion
time 5000 — the failed run advances the watermark. -/
theorem c1_batch_failure_advances_watermark :
    c1State.lastSyncedAt = some 1000 ∧
    (batchEventFailed c1State "b1" "connection reset" 5000).isInProgress
      = false ∧
    (batchEventFailed c1State "b1" "connection reset" 5000).lastSyncedAt
      = some 5000 ∧
    (batchEventFailed c1State "b1" "connection reset" 5000).lastSyncedAt
      ≠ c1State.lastSyncedAt := by
  refine ⟨rfl, by decide, by decide, by decide⟩

/-- C1, amended: the sync worker's own failure path leaves `lastSyncedAt`
unchanged, but when the last outstanding batch completes as failed the
`failed` event handler finalizes the run and sets `lastSyncedAt` to the
completion time. -/
theorem c1_watermark_on_failure_paths :
    (∀ (s : SyncState) (msg : String) (now : Nat),
      (syncWorkerCatch s msg now).lastSyncedAt = s.lastSyncedAt) ∧
    (∀ (s : SyncState) (jobId reason : String) (now : Nat) (o : BatchJobsObj),
      s.lastSyncStats.batchJobs = .obj o →
      o.completed + o.failed + 1 = o.total →
      (batchEventFailed s jobId reason now).lastSyncedAt = some now) := by
  constructor
  · intro s msg now
    rfl
  · intro s jobId reason now o hbj htot
    have hcond : o.completed + (o.failed + 1) = o.total := by omega
    simp only [batchEventFailed, hbj]
    rw [if_pos hcond]

theorem c1_watermark_on_failure_paths_witness :
    (batchEventFailed c1State "b1" "boom" 5000).lastSyncedAt = some 5000 :=
  c1_watermark_on_failure_paths.2 c1State "b1" "boom" 5000
    { total := 1, completed := 0, failed := 0, pending := 1, ids := ["b1"] }
    rfl (by decide)

/-- C2: each successful batch is recorded twice — once by the batch worker
and once by the queue's `completed` event handler — so the counters break
the claimed invariant and finalization misfires: after the single batch of a
one-batch run succeeds, `completed = 2` with `total = 1`
(`completed + failed > total`); in a two-batch run the first success already
finalizes the run (with batch b2 still outstanding), and the second success
finalizes it a second time (`totalSyncs` reaches 2 for one run). -/
theorem c2_completed_double_counted :
    (ensureBatchJobsObj c2OneBatchDone.lastSyncStats.batchJobs).completed
      = 2 ∧
    (ensureBatchJobsObj c2OneBatchDone.lastSyncStats.batchJobs).failed = 0 ∧
    (ensureBatchJobsObj c2OneBatchDone.lastSyncStats.batchJobs).total = 1 ∧
    ¬((ensureBatchJobsObj c2OneBatchDone.lastSyncStats.batchJobs).completed +
        (ensureBatchJobsObj c2OneBatchDone.lastSyncStats.batchJobs).failed ≤
      (ensureBatchJobsObj c2OneBatchDone.lastSyncStats.batchJobs).total) ∧
    c2TwoBatchFirstDone.isInProgress = false ∧
    c2TwoBatchFirstDone.totalSyncs = 1 ∧
    (ensureBatchJobsObj c2TwoBatchFirstDone.lastSyncStats.batchJobs).pending
      = 0 ∧
    c2TwoBatchBothDone.totalSyncs = 2 := by
  decide

/-- C3, counterexample: in a full-sync run whose enumeration returned ids p1
and p2 but whose save of p1 threw, p1 is **not** among the successfully
processed ids, so the cleanup soft-deletes p1's document even though its id
appeared in the enumeration. -/
theorem c3_enumerated_item_soft_deleted :
    "p1" ∈ (["p1", "p2"] : List String) ∧
    c3BatchOutcome.processedProductIds = ["p2"] ∧
    c3FinalStore.map (fun d =>
        (d.productId, d._sync_metadata.deleted_at, d._sync_metadata.last_action))
      = [("p1", some 200, .DELETED), ("p2", none, .ADDED)] := by
  decide

/-- C3, amended: after a full sync with at least one successfully processed
item and cleanup not skipped (and no retention purge configured), every
document is retained; every not-yet-deleted document of the store whose id
is not among the run's **successfully processed** ids ends soft-deleted
(`deleted_at` set to the cleanup time, `last_action = DELETED`); and a
document whose id was successfully processed is never marked deleted. -/
theorem c3_soft_delete_targets_processed_set
    (store : List ProductDoc) (storeId : String)
    (processedIds : List String) (now : Nat) (cursor : Option String)
    (hne : processedIds ≠ []) :
    (cleanupAfterFullSync store storeId true processedIds false none now
      cursor).length = store.length ∧
    ∀ d ∈ store,
      (d.storeId = storeId → d.productId ∉ processedIds →
        d._sync_metadata.deleted_at = none →
        markDeletedMeta d now cursor ∈
          cleanupAfterFullSync store storeId true processedIds false none now
            cursor) ∧
      (d.productId ∈ processedIds →
        d ∈ cleanupAfterFullSync store storeId true processedIds false none
          now cursor) := by
  have hcond : True ∧ processedIds ≠ [] ∧ ¬(false = true) :=
    ⟨trivial, hne, by simp⟩
  have hclean : cleanupAfterFullSync store storeId true processedIds false
      none now cursor = markDeletedProducts store storeId processedIds now
        cursor := by
    simp only [cleanupAfterFullSync]
    rw [if_pos hcond]
  rw [hclean]
  refine ⟨by simp [markDeletedProducts], ?_⟩
  intro d hd
  constructor
  · intro h1 h2 h3
    simp only [markDeletedProducts]
    refine List.mem_map.2 ⟨d, hd, ?_⟩
    show (if d.storeId = storeId ∧ d.productId ∉ processedIds ∧
        d._sync_metadata.deleted_at = none then
      markDeletedMeta d now cursor else d) = markDeletedMeta d now cursor
    rw [if_pos ⟨h1, h2, h3⟩]
  · intro hmem
    simp only [markDeletedProducts]
    refine List.mem_map.2 ⟨d, hd, ?_⟩
    show (if d.storeId = storeId ∧ d.productId ∉ processedIds ∧
        d._sync_metadata.deleted_at = none then
      markDeletedMeta d now cursor else d) = d
    rw [if_neg fun hc => hc.2.1 hmem]

theorem c3_soft_delete_targets_processed_set_witness :
    (cleanupAfterFullSync [docP1] "s1" true ["p2"] false none 200
      (some "c")).length = 1 ∧
    markDeletedMeta docP1 200 (some "c") ∈
      cleanupAfterFullSync [docP1] "s1" true ["p2"] false none 200
        (some "c") :=
  have h := c3_soft_delete_targets_processed_set [docP1] "s1" ["p2"] 200
    (some "c") (by decide)
  ⟨h.1, (h.2 docP1 (by decide)).1 rfl (by decide) rfl⟩

/-- C4, counterexample: in a dispatched batch of ten ids in which fetching
item p7 throws, the `Promise.all` over the detail fetches rejects, so the
whole detail batch is recorded failed: none of the ten items is upserted,
`failed` rises by 10 (not 1), and no id is marked processed. -/
theorem c4_fetch_failure_fails_whole_batch :
    processDetailBatch (fetchFailAt "p7") noSaveFail [] "s1" tenIds none 0 =
      { store := []
      , created := 0
      , updated := 0
      , failed := 10
      , processedProductIds := [] } ∧
    (10 : Nat) ≠ 1 := by
  refine ⟨by decide, by decide⟩

/-- C4, amended: a rejected detail **fetch** fails the whole batch — when any
id's fetch throws, nothing is upserted, `failed` increases by the full batch
length, and no id is recorded processed; only a per-item **save** failure is
isolated: with all fetches succeeding and exactly item p7's save throwing,
the other nine items are upserted (`created = 9`), `failed = 1`, and the
nine other ids are recorded processed. -/
theorem c4_failure_granularity :
    (∀ (fetch : String → Except String ShopifyProduct)
        (saveFails : String → Bool) (store : List ProductDoc)
        (storeId : String) (batch : List String) (cursor : Option String)
        (now : Nat) (e : String),
      batch.mapM fetch = .error e →
      processDetailBatch fetch saveFails store storeId batch cursor now =
        { store := store
        , created := 0
        , updated := 0
        , failed := batch.length
        , processedProductIds := [] }) ∧
    (processDetailBatch okFetch (saveFailAt "p7") [] "s1" tenIds none
        0).created = 9 ∧
    (processDetailBatch okFetch (saveFailAt "p7") [] "s1" tenIds none
        0).updated = 0 ∧
    (processDetailBatch okFetch (saveFailAt "p7") [] "s1" tenIds none
        0).failed = 1 ∧
    (processDetailBatch okFetch (saveFailAt "p7") [] "s1" tenIds none
        0).processedProductIds =
      ["p1", "p2", "p3", "p4", "p5", "p6", "p8", "p9", "p10"] := by
  refine ⟨?_, by decide, by decide, by decide, by decide⟩
  intro fetch saveFails store storeId batch cursor now e h
  simp only [processDetailBatch]
  rw [h]

theorem c4_failure_granularity_witness :
    processDetailBatch (fetchFailAt "b") noSaveFail [] "s" ["a", "b"] none 0 =
      { store := []
      , created := 0
      , updated := 0
      , failed := 2
      , processedProductIds := [] } :=
  c4_failure_granularity.1 (fetchFailAt "b") noSaveFail [] "s" ["a", "b"]
    none 0 "fetch failed" rfl

/-- Helper: a key absent from the collection has count zero. -/
theorem keyCount_of_findOne_none (store : List ProductDoc) (sid pid : String)
    (h : findOneProduct store sid pid = none) : keyCount store sid pid = 0 := by
  induction store with
  | nil => rfl
  | cons d rest ih =>
    unfold findOneProduct at h
    unfold keyCount
    split at h
    · exact Option.noConfusion h
    · rename_i hc
      rw [if_neg hc]
      simpa using ih h

/-- Helper: a key found in the collection has positive count. -/
theorem keyCount_pos_of_findOne (store : List ProductDoc) (sid pid : String)
    (e : ProductDoc) (h : findOneProduct store sid pid = some e) :
    1 ≤ keyCount store sid pid := by
  induction store with
  | nil => exact Option.noConfusion h
  | cons d rest ih =>
    unfold findOneProduct at h
    unfold keyCount
    split at h
    · rename_i hc
      rw [if_pos hc]
      omega
    · rename_i hc
      rw [if_neg hc]
      have := ih h
      omega

/-- Helper: upserting adds one document for the key when it was absent and
keeps the count otherwise (the replaced document carries the same key). -/
theorem keyCount_updateOneUpsert (store : List ProductDoc) (sid pid : String)
    (t : TransformedProduct) (now : Nat) (ht1 : t.storeId = sid)
    (ht2 : t.productId = pid) :
    keyCount (updateOneUpsert store sid pid t now).1 sid pid =
      if findOneProduct store sid pid = none then keyCount store sid pid + 1
      else keyCount store sid pid := by
  induction store with
  | nil =>
    simp [updateOneUpsert, keyCount, newProductDoc, findOneProduct, ht1, ht2]
  | cons d rest ih =>
    by_cases hc : d.storeId = sid ∧ d.productId = pid
    · have hf : findOneProduct (d :: rest) sid pid = some d := by
        unfold findOneProduct
        rw [if_pos hc]
      rw [hf]
      simp only [updateOneUpsert]
      rw [if_pos hc]
      show keyCount (applySet d t now :: rest) sid pid = _
      unfold keyCount
      rw [if_pos ⟨ht1, ht2⟩, if_pos hc]
      simp
    · have hf : findOneProduct (d :: rest) sid pid =
          findOneProduct rest sid pid := by
        show (if d.storeId = sid ∧ d.productId = pid then some d
          else findOneProduct rest sid pid) = findOneProduct rest sid pid
        rw [if_neg hc]
      rw [hf]
      simp only [updateOneUpsert]
      rw [if_neg hc]
      show keyCount (d :: (updateOneUpsert rest sid pid t now).1) sid pid = _
      unfold keyCount
      rw [if_neg hc, ih]
      split <;> simp

/-- Helper: after an upsert the key is present, holding the updated (or
freshly inserted) document. -/
theorem findOne_updateOneUpsert (store : List ProductDoc) (sid pid : String)
    (t : TransformedProduct) (now : Nat) (ht1 : t.storeId = sid)
    (ht2 : t.productId = pid) :
    findOneProduct (updateOneUpsert store sid pid t now).1 sid pid =
      some (match findOneProduct store sid pid with
            | some e => applySet e t now
            | none => newProductDoc t now) := by
  induction store with
  | nil =>
    simp [updateOneUpsert, findOneProduct, newProductDoc, ht1, ht2]
  | cons d rest ih =>
    by_cases hc : d.storeId = sid ∧ d.productId = pid
    · simp only [updateOneUpsert]
      rw [if_pos hc]
      show findOneProduct (applySet d t now :: rest) sid pid = _
      unfold findOneProduct
      rw [if_pos (⟨ht1, ht2⟩ : (applySet d t now).storeId = sid ∧
        (applySet d t now).productId = pid), if_pos hc]
    · simp only [updateOneUpsert]
      rw [if_neg hc]
      show findOneProduct (d :: (updateOneUpsert rest sid pid t now).1)
        sid pid = _
      unfold findOneProduct
      rw [if_neg hc, if_neg hc, ih]

/-- Helper: updating with fields the found document already carries leaves
the collection unchanged. -/
theorem updateOneUpsert_fixed (store : List ProductDoc) (sid pid : String)
    (t : TransformedProduct) (now : Nat) (e : ProductDoc)
    (hf : findOneProduct store sid pid = some e)
    (hst : applySet e t now = e) :
    (updateOneUpsert store sid pid t now).1 = store := by
  induction store with
  | nil => exact Option.noConfusion hf
  | cons d rest ih =>
    unfold findOneProduct at hf
    split at hf
    · rename_i hc
      have hde : d = e := Option.some.inj hf
      simp only [updateOneUpsert]
      rw [if_pos hc]
      show applySet d t now :: rest = d :: rest
      rw [hde, hst]
    · rename_i hc
      simp only [updateOneUpsert]
      rw [if_neg hc]
      show d :: (updateOneUpsert rest sid pid t now).1 = d :: rest
      rw [ih hf]

/-- Helper: re-transforming an already updated document reproduces it —
`first_seen_at` is preserved, the run cursor absorbs itself
(`cursor || (cursor || old)` collapses), and all remaining fields come from
the same upstream product and timestamps. -/
theorem applySet_transform_stable (p : ShopifyProduct) (storeId : String)
    (cursor : Option String) (now : Nat) (e : ProductDoc) :
    applySet (applySet e (transformProduct p storeId (some e) cursor now) now)
      (transformProduct p storeId
        (some (applySet e (transformProduct p storeId (some e) cursor now)
          now)) cursor now) now =
      applySet e (transformProduct p storeId (some e) cursor now) now := by
  cases cursor <;> rfl

/-- C6: processing the same upstream product twice with identical data (same
payload, cursor and timestamps) against a collection holding at most one
document for its key leaves exactly one document for `(storeId, productId)`,
and the state is convergent: replaying the processing a further time changes
nothing. -/
theorem c6_upsert_replay_converges (store : List ProductDoc)
    (storeId : String) (p : ShopifyProduct) (cursor : Option String)
    (now : Nat) (h : keyCount store storeId p.id ≤ 1) :
    keyCount
      (upsertShopifyProduct
        (upsertShopifyProduct store storeId p cursor now).1
        storeId p cursor now).1 storeId p.id = 1 ∧
    (upsertShopifyProduct
      (upsertShopifyProduct
        (upsertShopifyProduct store storeId p cursor now).1
        storeId p cursor now).1 storeId p cursor now).1 =
    (upsertShopifyProduct
      (upsertShopifyProduct store storeId p cursor now).1
      storeId p cursor now).1 := by
  have hub : ∀ s : List ProductDoc,
      upsertShopifyProduct s storeId p cursor now =
        updateOneUpsert s storeId p.id
          (transformProduct p storeId (findOneProduct s storeId p.id) cursor
            now) now := fun s => rfl
  have ht1 : ∀ ex : Option ProductDoc,
      (transformProduct p storeId ex cursor now).storeId = storeId :=
    fun ex => rfl
  have ht2 : ∀ ex : Option ProductDoc,
      (transformProduct p storeId ex cursor now).productId = p.id :=
    fun ex => rfl
  rw [hub store]
  set t0 := transformProduct p storeId (findOneProduct store storeId p.id)
    cursor now with ht0
  set s1 := (updateOneUpsert store storeId p.id t0 now).1 with hs1
  have hkc1 : keyCount s1 storeId p.id = 1 := by
    rw [hs1, keyCount_updateOneUpsert store storeId p.id t0 now (ht1 _) (ht2 _)]
    rcases hfind : findOneProduct store storeId p.id with _ | e
    · rw [if_pos rfl, keyCount_of_findOne_none store _ _ hfind]
    · rw [if_neg (fun hh => Option.noConfusion hh)]
      have hpos := keyCount_pos_of_findOne store _ _ e hfind
      omega
  have hf1 : findOneProduct s1 storeId p.id =
      some (match findOneProduct store storeId p.id with
            | some e => applySet e t0 now
            | none => newProductDoc t0 now) :=
    findOne_updateOneUpsert store storeId p.id t0 now (ht1 _) (ht2 _)
  set e1 := (match findOneProduct store storeId p.id with
            | some e => applySet e t0 now
            | none => newProductDoc t0 now) with he1
  rw [hub s1, hf1]
  set t1 := transformProduct p storeId (some e1) cursor now with ht1e
  set s2 := (updateOneUpsert s1 storeId p.id t1 now).1 with hs2
  have hkc2 : keyCount s2 storeId p.id = 1 := by
    rw [hs2, keyCount_updateOneUpsert s1 storeId p.id t1 now (ht1 _) (ht2 _)]
    rw [if_neg (by rw [hf1]; exact fun hh => Option.noConfusion hh)]
    exact hkc1
  have hf2 : findOneProduct s2 storeId p.id = some (applySet e1 t1 now) := by
    rw [hs2, findOne_updateOneUpsert s1 storeId p.id t1 now (ht1 _) (ht2 _),
      hf1]
  refine ⟨hkc2, ?_⟩
  rw [hub s2, hf2]
  exact updateOneUpsert_fixed s2 storeId p.id
    (transformProduct p storeId (some (applySet e1 t1 now)) cursor now) now
    (applySet e1 t1 now) hf2 (applySet_transform_stable p storeId cursor now e1)

theorem c6_upsert_replay_converges_witness :
    keyCount
      (upsertShopifyProduct
        (upsertShopifyProduct [] "s1" (mkShopifyProduct "p1") (some "c")
          100).1
        "s1" (mkShopifyProduct "p1") (some "c") 100).1 "s1"
      (mkShopifyProduct "p1").id = 1 ∧
    (upsertShopifyProduct
      (upsertShopifyProduct
        (upsertShopifyProduct [] "s1" (mkShopifyProduct "p1") (some "c")
          100).1
        "s1" (mkShopifyProduct "p1") (some "c") 100).1 "s1"
      (mkShopifyProduct "p1") (some "c") 100).1 =
    (upsertShopifyProduct
      (upsertShopifyProduct [] "s1" (mkShopifyProduct "p1") (some "c")
        100).1
      "s1" (mkShopifyProduct "p1") (some "c") 100).1 :=
  c6_upsert_replay_converges [] "s1" (mkShopifyProduct "p1") (some "c") 100
    (by decide)

end ShopifyProcessor
